import Mathlib

/-!
Verification of the dify-patcher schema-extraction and node-generation core
(`src/generator/schema_extractor.py` and `src/generator/node_generator.py`),
shallowly embedded in Lean.  Python runtime values that flow through the
code are modelled by a JSON-like value type; fallible Python code (code
that can raise) is modelled in the `Except PyError` monad; the file system
touched by the generator is modelled as a map from paths to file contents.
-/

/-- JSON-like runtime values, as produced by `json.loads` and handled by the
Python code under scrutiny.  Numbers are modelled as integers (the schemas,
defaults and enums exercised here are integral); `obj` keeps the key
insertion order, as Python 3.7+ dicts do. -/
inductive Json where
  | null
  | bool (b : Bool)
  | num (n : Int)
  | str (s : String)
  | arr (elems : List Json)
  | obj (fields : List (String × Json))

/-- The kinds of exception the embedded Python code can raise. -/
inductive PyError where
  | attributeError
  | typeError
  | indexError
  | keyError (k : String)
  | valueError (msg : String)
  | jsonError
deriving Repr, DecidableEq

/-- `d.get(key)` on a Python dict modelled as an association list
(keys of a dict are unique, so the first match is the only one). -/
def pyGet (fields : List (String × Json)) (key : String) : Option Json :=
  (fields.find? (fun p => p.1 == key)).map (·.2)

/-- `d[key] = v` on a Python dict: replace the value in place if the key is
present, append otherwise. -/
def pySet (fields : List (String × Json)) (key : String) (v : Json) :
    List (String × Json) :=
  match fields with
  | [] => [(key, v)]
  | p :: rest => if p.1 == key then (p.1, v) :: rest else p :: pySet rest key v

/-- Python truthiness (`bool(x)`) for JSON-like values. -/
def pyTruthy : Json → Bool
  | .null => false
  | .bool b => b
  | .num n => n != 0
  | .str s => s != ""
  | .arr xs => !xs.isEmpty
  | .obj fs => !fs.isEmpty

/-- Iterating a Python value (`for v in x`): lists yield their elements,
strings their characters, dicts their keys; other values raise `TypeError`. -/
def pyIter : Json → Except PyError (List Json)
  | .arr xs => .ok xs
  | .str s => .ok (s.toList.map (fun c => Json.str (String.singleton c)))
  | .obj fs => .ok (fs.map (fun p => Json.str p.1))
  | _ => .error .typeError

/-- Substring occurrence on character lists. -/
def containsSub (needle : List Char) : List Char → Bool
  | [] => needle.isEmpty
  | c :: rest => needle.isPrefixOf (c :: rest) || containsSub needle rest

/-- Python's substring test `needle in hay` for strings. -/
def pyIn (needle hay : String) : Bool :=
  containsSub needle.toList hay.toList

/-- `s.startswith(pre)`. -/
def pyStartsWith (pre s : String) : Bool :=
  pre.toList.isPrefixOf s.toList

/-- `s.endswith(suffix)`. -/
def pyEndsWith (suffix s : String) : Bool :=
  suffix.toList.isSuffixOf s.toList

/-- Everything after the first occurrence of `sep` (the empty list when
`sep` does not occur). -/
def dropThroughFirst (sep : List Char) : List Char → List Char
  | [] => []
  | c :: rest =>
    if sep.isPrefixOf (c :: rest) then (c :: rest).drop sep.length
    else dropThroughFirst sep rest

/-- `x[0]` on a Python value. -/
def pyIndexZero : Json → Except PyError Json
  | .arr (x :: _) => .ok x
  | .arr [] => .error .indexError
  | .str s =>
    match s.toList with
    | c :: _ => .ok (Json.str (String.singleton c))
    | [] => .error .indexError
  | _ => .error .typeError

/-- `key in x` on a Python value: key membership for dicts, element
membership for lists, substring for strings; `TypeError` otherwise. -/
def pyContainsKey (needle : String) : Json → Except PyError Bool
  | .obj fs => .ok (fs.any (fun p => p.1 == needle))
  | .arr xs => .ok (xs.any (fun x => match x with | .str s => s == needle | _ => false))
  | .str s => .ok (pyIn needle s)
  | _ => .error .typeError

/-- `x[key]` on a Python value (string subscript): only dicts support it. -/
def pySubscript (j : Json) (key : String) : Except PyError Json :=
  match j with
  | .obj fs =>
    match pyGet fs key with
    | some v => .ok v
    | none => .error (.keyError key)
  | _ => .error .typeError

/-- `s.lower()` (ASCII range, which is the range `Char.toLower` covers). -/
def pyLower (s : String) : String := String.mk (s.toList.map Char.toLower)

/-- `str.capitalize()`: first character uppercased, the rest lowercased. -/
def pyCapitalize : List Char → List Char
  | [] => []
  | c :: rest => c.toUpper :: rest.map Char.toLower

/-- The non-empty maximal runs of characters not satisfying `p`
(the shape of both `re.split(sep_run, s)` with empties filtered out,
and of `str.split()`). -/
def wordsBy (p : Char → Bool) : List Char → List Char → List (List Char)
  | [], acc => if acc.isEmpty then [] else [acc.reverse]
  | c :: rest, acc =>
    if p c then
      if acc.isEmpty then wordsBy p rest [] else acc.reverse :: wordsBy p rest []
    else wordsBy p rest (c :: acc)

/-- `re.sub(r'-+', '-', s)`: collapse each run of hyphens to one hyphen. -/
def collapseHyphens : List Char → List Char
  | [] => []
  | [c] => [c]
  | a :: b :: rest =>
    if a = '-' ∧ b = '-' then collapseHyphens (b :: rest)
    else a :: collapseHyphens (b :: rest)

/-- `s.strip(c)`: drop every leading and trailing occurrence of `c`. -/
def stripChar (c : Char) (l : List Char) : List Char :=
  ((l.dropWhile (· == c)).reverse.dropWhile (· == c)).reverse

/-- The character class `[a-zA-Z0-9]` of the regex in `_generate_node_type`. -/
def isAlnumAscii (c : Char) : Bool :=
  ('a' ≤ c ∧ c ≤ 'z') ∨ ('A' ≤ c ∧ c ≤ 'Z') ∨ ('0' ≤ c ∧ c ≤ '9')

/-- The separator class `[_\-\s]` of the regex in `_generate_class_name`
(`\s` in its ASCII range). -/
def isSepChar (c : Char) : Bool :=
  c = '_' ∨ c = '-' ∨ c = ' ' ∨ c = '\t' ∨ c = '\n' ∨ c = '\r' ∨
    c = Char.ofNat 11 ∨ c = Char.ofNat 12

/-- `MCPToolSchema._generate_node_type`: lowercase, replace every character
outside `[a-zA-Z0-9]` with `-`, collapse hyphen runs, strip outer hyphens,
prefix `mcp-`. -/
def generateNodeType (name : String) : String :=
  let safeName := (pyLower name).toList.map (fun c => if isAlnumAscii c then c else '-')
  let safeName := collapseHyphens safeName
  let safeName := stripChar '-' safeName
  "mcp-" ++ String.mk safeName

/-- `MCPToolSchema._generate_class_name`: split on `[_\-\s]+`, capitalize
each non-empty word, concatenate, wrap as `MCP...Node`. -/
def generateClassName (name : String) : String :=
  let words := wordsBy isSepChar name.toList []
  "MCP" ++ String.join (words.map (fun w => String.mk (pyCapitalize w))) ++ "Node"

/-- `MCPToolSchema` (dataclass in `schema_extractor.py`).  The non-derived
fields other than `name` are stored as the raw runtime values Python would
store; the two derived fields are computed in `__post_init__`. -/
structure MCPToolSchema where
  name : String
  description : Json
  input_schema : Json
  output_schema : Json
  annotations : Json
  node_type : String
  class_name : String

/-- Construction of an `MCPToolSchema`: `__post_init__` fills the two
derived fields from `name` alone. -/
def MCPToolSchema.make (name : String) (description input_schema output_schema annotations : Json) :
    MCPToolSchema :=
  { name := name
    description := description
    input_schema := input_schema
    output_schema := output_schema
    annotations := annotations
    node_type := generateNodeType name
    class_name := generateClassName name }

/-- `MCPToolSchema.to_dict`. -/
def MCPToolSchema.toDict (t : MCPToolSchema) : Json :=
  .obj [("name", .str t.name),
        ("description", t.description),
        ("input_schema", t.input_schema),
        ("output_schema", t.output_schema),
        ("annotations", t.annotations),
        ("node_type", .str t.node_type),
        ("class_name", .str t.class_name)]

/-- `MCPToolSchema.from_dict`: reads `name` (raising `KeyError` when absent)
and the optional fields, then constructs the dataclass, which recomputes the
derived fields; `node_type`/`class_name` entries of the record are never
read.  A non-dict record or a non-string name raises (`data['name']` /
`name.lower()` in `__post_init__`). -/
def MCPToolSchema.fromDict (data : Json) : Except PyError MCPToolSchema :=
  match data with
  | .obj fields =>
    match pyGet fields "name" with
    | none => .error (.keyError "name")
    | some (.str n) =>
      .ok (MCPToolSchema.make n
        ((pyGet fields "description").getD .null)
        ((pyGet fields "input_schema").getD (.obj []))
        ((pyGet fields "output_schema").getD .null)
        ((pyGet fields "annotations").getD .null))
    | some _ => .error .attributeError
  | _ => .error .typeError

/-- `MCPSchemaExtractor.save_schemas`, at the level of the JSON document
written to the file: a flat array of `to_dict` records. -/
def saveSchemasDoc (tools : List MCPToolSchema) : Json :=
  .arr (tools.map MCPToolSchema.toDict)

/-- `MCPSchemaExtractor.from_json_file`, at the level of the JSON document
read from the file: a bare array, or an object with a `tools` array. -/
def fromJsonFileDoc (data : Json) : Except PyError (List MCPToolSchema) := do
  let toolsData ← match data with
    | .arr xs => pure xs
    | .obj fields => pyIter ((pyGet fields "tools").getD (.arr []))
    | _ => throw .attributeError
  toolsData.mapM MCPToolSchema.fromDict

/-- Python `repr()` of a JSON-like value, for quote-free strings (Python
would switch a string containing a single quote to double-quote form; the
values rendered by the generator do not contain quotes). -/
def pyRepr : Json → String
  | .null => "None"
  | .bool true => "True"
  | .bool false => "False"
  | .num n => toString n
  | .str s => "'" ++ s ++ "'"
  | .arr xs =>
    "[" ++ String.intercalate ", " (xs.attach.map (fun x => pyRepr x.1)) ++ "]"
  | .obj fs =>
    "\x7b" ++
      String.intercalate ", "
        (fs.attach.map (fun p => "'" ++ p.1.1 ++ "': " ++ pyRepr p.1.2)) ++
    "\x7d"
decreasing_by
  · have := List.sizeOf_lt_of_mem x.2
    simp only [Json.arr.sizeOf_spec]
    omega
  · have h1 := List.sizeOf_lt_of_mem p.2
    have h2 : sizeOf p.1.2 ≤ sizeOf p.1 := by
      obtain ⟨⟨a, b⟩, hm⟩ := p
      simp only [Prod.mk.sizeOf_spec]
      omega
    simp only [Json.obj.sizeOf_spec]
    omega

/-- Python `str()` of a JSON-like value (what an f-string interpolation
emits). -/
def pyStr : Json → String
  | .str s => s
  | j => pyRepr j

/-- The string-literal union `' | '.join(f"'{v}'" for v in vs)` built by
`get_typescript_type` for an enumeration. -/
def tsEnumUnion (vs : List Json) : String :=
  String.intercalate " | " (vs.map (fun v => "'" ++ pyStr v ++ "'"))

/-- `MCPToolSchema.get_typescript_type`: JSON Schema type to TypeScript
type.  `TypeError` models iterating a non-iterable `enum` value,
`AttributeError` models `.get` on a non-dict (`items` or the schema
itself). -/
def getTypescriptType (propSchema : Json) : Except PyError String :=
  match propSchema with
  | .obj fields =>
    match (pyGet fields "type").getD (Json.str "any") with
    | .str jsonType =>
      if jsonType = "string" then
        match pyGet fields "enum" with
        | some enumVal => do
          let vs ← pyIter enumVal
          pure (tsEnumUnion vs)
        | none => pure "string"
      else if jsonType = "number" ∨ jsonType = "integer" then pure "number"
      else if jsonType = "boolean" then pure "boolean"
      else if jsonType = "array" then
        match hIt : pyGet fields "items" with
        | some items => do
          let itemType ← getTypescriptType items
          pure (itemType ++ "[]")
        | none =>
          -- `items` defaults to `{}`, on which the recursive call returns `'any'`
          pure ("any" ++ "[]")
      else if jsonType = "object" then pure "Record<string, any>"
      else pure "any"
    | _ => pure "any"
  | _ => .error .attributeError
decreasing_by
  unfold pyGet at hIt
  rw [Option.map_eq_some'] at hIt
  obtain ⟨q, hq, hq2⟩ := hIt
  have hmem := List.mem_of_find?_eq_some hq
  have hlt := List.sizeOf_lt_of_mem hmem
  obtain ⟨a, b⟩ := q
  simp only [Prod.mk.sizeOf_spec] at hlt
  simp only [← hq2, Json.obj.sizeOf_spec]
  omega

/-- `MCPToolSchema.get_python_type`: JSON Schema type to Python type hint. -/
def getPythonType (propSchema : Json) : Except PyError String :=
  match propSchema with
  | .obj fields =>
    match (pyGet fields "type").getD (Json.str "Any") with
    | .str jsonType =>
      if jsonType = "string" then pure "str"
      else if jsonType = "number" then pure "float"
      else if jsonType = "integer" then pure "int"
      else if jsonType = "boolean" then pure "bool"
      else if jsonType = "array" then
        match hIt : pyGet fields "items" with
        | some items => do
          let itemType ← getPythonType items
          pure ("list[" ++ itemType ++ "]")
        | none =>
          -- `items` defaults to `{}`, on which the recursive call returns `'Any'`
          pure ("list[" ++ "Any" ++ "]")
      else if jsonType = "object" then pure "dict[str, Any]"
      else pure "Any"
    | _ => pure "Any"
  | _ => .error .attributeError
decreasing_by
  unfold pyGet at hIt
  rw [Option.map_eq_some'] at hIt
  obtain ⟨q, hq, hq2⟩ := hIt
  have hmem := List.mem_of_find?_eq_some hq
  have hlt := List.sizeOf_lt_of_mem hmem
  obtain ⟨a, b⟩ := q
  simp only [Prod.mk.sizeOf_spec] at hlt
  simp only [← hq2, Json.obj.sizeOf_spec]
  omega

/-- The path component of `urllib.parse.urlparse`, for the URL shapes the
extractor receives: an explicit `scheme://netloc/path` URL, or a plain
string without `://` whose leading part up to `?`/`#` is the path. -/
def urlparsePath (url : String) : String :=
  let cs := url.toList
  if containsSub "://".toList cs then
    let afterScheme := dropThroughFirst "://".toList cs
    let tailChars := afterScheme.dropWhile (fun c => c ≠ '/' ∧ c ≠ '?' ∧ c ≠ '#')
    match tailChars with
    | '/' :: _ => String.mk (tailChars.takeWhile (fun c => c ≠ '?' ∧ c ≠ '#'))
    | _ => ""
  else String.mk (cs.takeWhile (fun c => c ≠ '?' ∧ c ≠ '#'))

/-- The protocol-variant test of `_extract_tools_standalone`:
`'/sse' in self.server_url or parsed.path.endswith('/sse')`. -/
def usesSSEVariant (serverUrl : String) : Bool :=
  pyIn "/sse" serverUrl || pyEndsWith "/sse" (urlparsePath serverUrl)

/-- The two wire variants of the extractor. -/
inductive TransportVariant where
  | sse
  | http
deriving Repr, DecidableEq

/-- `_extract_tools_standalone`: dispatch to `_extract_via_sse` when the
test fires, `_extract_via_http` otherwise. -/
def selectVariant (serverUrl : String) : TransportVariant :=
  if usesSSEVariant serverUrl then .sse else .http

/-- The `for line in response.iter_lines()` loop of `_extract_via_sse`:
scan for the first `data: `-framed line whose decoded payload contains an
`endpoint` field (`decode` stands for the external `json.loads`).  Returns
the final value of `endpoint_url` (`none` when the stream closes first). -/
def sseScanForEndpoint (decode : String → Except PyError Json) :
    List String → Except PyError (Option Json)
  | [] => .ok none
  | line :: rest =>
    if pyStartsWith "data: " line then do
      let data ← decode (String.mk (line.toList.drop 6))
      let hasEndpoint ← pyContainsKey "endpoint" data
      if hasEndpoint then do
        let ep ← pySubscript data "endpoint"
        pure (some ep)
      else sseScanForEndpoint decode rest
    else sseScanForEndpoint decode rest

/-- The handshake phase of `_extract_via_sse`, up to the discovery request:
read events until a payload with an `endpoint` field arrives; raise
`ValueError("No endpoint URL received from SSE")` when the stream closes
without one (or when the received value is falsy, per `if not
endpoint_url`); otherwise return the session endpoint to which the
`tools/list` discovery request is subsequently POSTed. -/
def sseSessionEndpoint (decode : String → Except PyError Json)
    (lines : List String) : Except PyError Json := do
  let endpointUrl ← sseScanForEndpoint decode lines
  match endpointUrl with
  | some ep =>
    if pyTruthy ep then pure ep
    else throw (.valueError "No endpoint URL received from SSE")
  | none => throw (.valueError "No endpoint URL received from SSE")

/-- Python's `\s` class for `str.split()` and the class-name regex
(ASCII range). -/
def isPySpace (c : Char) : Bool :=
  c = ' ' ∨ c = '\t' ∨ c = '\n' ∨ c = '\r' ∨ c = Char.ofNat 11 ∨ c = Char.ofNat 12

/-- `CustomNodeGenerator._format_name`: snake/kebab-case to Title Case. -/
def formatName (name : String) : String :=
  let replaced := name.toList.map (fun c => if c = '_' then ' ' else if c = '-' then ' ' else c)
  let words := wordsBy isPySpace replaced []
  String.intercalate " " (words.map (fun w => String.mk (pyCapitalize w)))

/-- The ordered keyword→glyph table of `CustomNodeGenerator._get_icon`. -/
def iconMap : List (String × String) :=
  [("file", "📁"), ("read", "📖"), ("write", "📝"), ("search", "🔍"),
   ("list", "📋"), ("delete", "🗑️"), ("create", "➕"), ("edit", "✏️"),
   ("get", "📥"), ("send", "📤"), ("api", "🔌"), ("http", "🌐"),
   ("database", "🗃️"), ("query", "❓"), ("execute", "▶️"), ("run", "🏃")]

/-- `CustomNodeGenerator._get_icon`: the first keyword contained in the
lowercased tool name wins; a wrench is the fallback. -/
def getIcon (schema : MCPToolSchema) : String :=
  let name := pyLower schema.name
  match iconMap.find? (fun p => pyIn p.1 name) with
  | some p => p.2
  | none => "🔧"

/-- `MCPToolSchema.properties` as consumed by `.items()` loops: raises when
`input_schema` or its `properties` value is not a dict. -/
def MCPToolSchema.propertiesItems (t : MCPToolSchema) :
    Except PyError (List (String × Json)) :=
  match t.input_schema with
  | .obj fields =>
    match (pyGet fields "properties").getD (.obj []) with
    | .obj props => .ok props
    | _ => .error .attributeError
  | _ => .error .attributeError

/-- `MCPToolSchema.required_fields`: the raw `required` value, `[]` when
absent. -/
def MCPToolSchema.requiredFields (t : MCPToolSchema) : Except PyError Json :=
  match t.input_schema with
  | .obj fields => .ok ((pyGet fields "required").getD (.arr []))
  | _ => .error .attributeError

/-- One per-parameter `input_def` entry of `_generate_input_schema`. -/
def manifestInputDef (propName : String) (propSchema : Json) (required : Json) :
    Except PyError Json := do
  match propSchema with
  | .obj pf =>
    let inputDef : List (String × Json) :=
      [("type", (pyGet pf "type").getD (.str "string")),
       ("title", .str (formatName propName))]
    let inputDef := match pyGet pf "description" with
      | some d => pySet inputDef "description" d
      | none => inputDef
    let isRequired ← pyContainsKey propName required
    let inputDef := if isRequired then pySet inputDef "required" (.bool true) else inputDef
    let inputDef := match pyGet pf "default" with
      | some d => pySet inputDef "default" d
      | none => inputDef
    let inputDef := match pyGet pf "enum" with
      | some e => pySet inputDef "enum" e
      | none => inputDef
    pure (Json.obj inputDef)
  | _ => throw .attributeError

/-- `_generate_input_schema`: the fixed required `mcp_server_url` input
followed by one entry per schema parameter. -/
def generateInputSchema (schema : MCPToolSchema) : Except PyError Json := do
  let inputs : List (String × Json) :=
    [("mcp_server_url", .obj
      [("type", .str "string"),
       ("title", .str "MCP Server URL"),
       ("description", .str "MCP server endpoint (SSE or HTTP)"),
       ("required", .bool true)])]
  let props ← schema.propertiesItems
  let required ← schema.requiredFields
  let inputs ← props.foldlM (fun acc (pn : String × Json) => do
      let d ← manifestInputDef pn.1 pn.2 required
      pure (pySet acc pn.1 d)) inputs
  pure (Json.obj inputs)

/-- `_generate_output_schema`: three fixed outputs. -/
def generateOutputSchema : Json :=
  .obj [("text", .obj [("type", .str "string"),
          ("description", .str "Text content from tool result")]),
        ("result", .obj [("type", .str "object"),
          ("description", .str "Full tool result object")]),
        ("is_error", .obj [("type", .str "boolean"),
          ("description", .str "Whether the tool returned an error")])]

/-- The manifest dict assembled by `_generate_manifest`. -/
def generateManifestDoc (schema : MCPToolSchema) : Except PyError Json := do
  let inputs ← generateInputSchema schema
  pure (Json.obj
    [("node_type", .str schema.node_type),
     ("version", .str "1"),
     ("name", .str (formatName schema.name)),
     ("description", if pyTruthy schema.description then schema.description
        else .str ("MCP tool: " ++ schema.name)),
     ("author", .str "MCP Node Generator"),
     ("icon", .str (getIcon schema)),
     ("category", .str "mcp-tools"),
     ("backend", .obj [("entry", .str "node.py"),
        ("dependencies", .arr [.str "httpx>=0.27.0"])]),
     ("frontend", .obj [("entry", .str "index.ts")]),
     ("inputs", inputs),
     ("outputs", generateOutputSchema)])

/-- A lowercase hexadecimal digit. -/
def hexDigit (n : Nat) : Char :=
  if n < 10 then Char.ofNat (48 + n) else Char.ofNat (87 + n)

/-- Four lowercase hexadecimal digits. -/
def hex4 (n : Nat) : String :=
  String.mk [hexDigit (n / 4096 % 16), hexDigit (n / 256 % 16),
             hexDigit (n / 16 % 16), hexDigit (n % 16)]

/-- `json.dump`'s escaping of one character (`ensure_ascii=True`): short
escapes for the usual control characters, `\uXXXX` (with surrogate pairs
beyond the BMP) for everything outside printable ASCII. -/
def jsonEscapeChar (c : Char) : String :=
  if c = '"' then "\\\""
  else if c = '\\' then "\\\\"
  else if c = '\n' then "\\n"
  else if c = '\r' then "\\r"
  else if c = '\t' then "\\t"
  else if c = Char.ofNat 8 then "\\b"
  else if c = Char.ofNat 12 then "\\f"
  else if c.toNat < 32 ∨ c.toNat > 126 then
    if c.toNat ≤ 65535 then "\\u" ++ hex4 c.toNat
    else
      "\\u" ++ hex4 (55296 + (c.toNat - 65536) / 1024) ++
      "\\u" ++ hex4 (56320 + (c.toNat - 65536) % 1024)
  else String.singleton c

/-- A JSON string literal as `json.dump` emits it. -/
def renderJsonString (s : String) : String :=
  "\"" ++ String.join (s.toList.map jsonEscapeChar) ++ "\""

/-- `json.dump(..., indent=2)` of a document, at context indentation
`ind` (the manifest file is written with `ind = 0`). -/
def renderJson (ind : Nat) (j : Json) : String :=
  match j with
  | .null => "null"
  | .bool true => "true"
  | .bool false => "false"
  | .num n => toString n
  | .str s => renderJsonString s
  | .arr [] => "[]"
  | .arr xs =>
    "[\n" ++
      String.intercalate ",\n"
        (xs.attach.map (fun x =>
          String.mk (List.replicate (ind + 2) ' ') ++ renderJson (ind + 2) x.1)) ++
    "\n" ++ String.mk (List.replicate ind ' ') ++ "]"
  | .obj [] => "\x7b\x7d"
  | .obj fs =>
    "\x7b\n" ++
      String.intercalate ",\n"
        (fs.attach.map (fun p =>
          String.mk (List.replicate (ind + 2) ' ') ++
            renderJsonString p.1.1 ++ ": " ++ renderJson (ind + 2) p.1.2)) ++
    "\n" ++ String.mk (List.replicate ind ' ') ++ "\x7d"
termination_by sizeOf j
decreasing_by
  · have := List.sizeOf_lt_of_mem x.2
    simp only [Json.arr.sizeOf_spec]
    omega
  · have h1 := List.sizeOf_lt_of_mem p.2
    have h2 : sizeOf p.1.2 ≤ sizeOf p.1 := by
      obtain ⟨⟨a, b⟩, hm⟩ := p
      simp only [Prod.mk.sizeOf_spec]
      omega
    simp only [Json.obj.sizeOf_spec]
    omega

/-- One input-extraction line of `_generate_node_py`.  The absent-default
fallback of `prop_schema.get('default', "''")` is the two-character Python
string consisting of two single quotes, so it is itself subject to the
`isinstance(default, str)` re-quoting. -/
def nodePyInputLine (propName : String) (propSchema : Json) : Except PyError String :=
  match propSchema with
  | .obj pf =>
    let dflt := (pyGet pf "default").getD (Json.str "''")
    let dfltText := match dflt with
      | .str s => "'" ++ s ++ "'"
      | .null => "None"
      | other => pyStr other
    .ok ("        " ++ propName ++ " = self.get_input('" ++ propName ++ "', " ++ dfltText ++ ")")
  | _ => .error .attributeError

/-- `', '.join(f"'{p}': {p}" for p in properties.keys())`. -/
def nodePyParamsDict (props : List (String × Json)) : String :=
  String.intercalate ", " (props.map (fun p => "'" ++ p.1 ++ "': " ++ p.1))

/-- One required-parameter guard block of `_generate_node_py`. -/
def nodePyValidationBlock (propName : String) (props : List (String × Json)) : String :=
  "\n        if not " ++ propName ++ ":\n" ++
  "            return NodeRunResult(\n" ++
  "                status=WorkflowNodeExecutionStatus.FAILED,\n" ++
  "                inputs=\x7b" ++ nodePyParamsDict props ++ "\x7d,\n" ++
  "                outputs=\x7b\x7d,\n" ++
  "                error=\"" ++ formatName propName ++ " is required\"\n" ++
  "            )"

/-- The single loop of `_generate_node_py` that accumulates `input_lines`
and `validation_lines`. -/
def nodePyInputAndValidation (props : List (String × Json)) (required : Json) :
    Except PyError (List String × List String) :=
  props.foldlM (fun acc p => do
      let line ← nodePyInputLine p.1 p.2
      let isReq ← pyContainsKey p.1 required
      pure (acc.1 ++ [line],
            if isReq then acc.2 ++ [nodePyValidationBlock p.1 props] else acc.2))
    ([], [])

/-- The fixed part of the `node.py` template after the `tool_params`
line (template braces `{{`/`}}` rendered as literal braces). -/
def nodePyStaticTail : String := String.intercalate "\n"
  ["",
   "        try:",
   "            # Invoke MCP tool",
   "            result = self._invoke_mcp_tool(mcp_server_url, tool_params)",
   "",
   "            # Process result",
   "            text_content = self._extract_text(result)",
   "            is_error = result.get('isError', False)",
   "",
   "            if is_error:",
   "                return NodeRunResult(",
   "                    status=WorkflowNodeExecutionStatus.FAILED,",
   "                    inputs=tool_params,",
   "                    outputs=\x7b'text': text_content, 'result': result, 'is_error': True\x7d,",
   "                    error=text_content or \"Tool returned an error\"",
   "                )",
   "",
   "            return NodeRunResult(",
   "                status=WorkflowNodeExecutionStatus.SUCCEEDED,",
   "                inputs=tool_params,",
   "                outputs=\x7b",
   "                    'text': text_content,",
   "                    'result': result,",
   "                    'is_error': False,",
   "                \x7d",
   "            )",
   "",
   "        except Exception as e:",
   "            return NodeRunResult(",
   "                status=WorkflowNodeExecutionStatus.FAILED,",
   "                inputs=tool_params,",
   "                outputs=\x7b\x7d,",
   "                error=f\"MCP tool invocation failed: \x7bstr(e)\x7d\"",
   "            )",
   "",
   "    def _invoke_mcp_tool(self, server_url: str, params: dict[str, Any]) -> dict[str, Any]:",
   "        \"\"\"",
   "        Invoke the MCP tool via HTTP/SSE.",
   "",
   "        Override this method to customize the invocation logic.",
   "        \"\"\"",
   "        try:",
   "            from core.mcp import MCPClient",
   "",
   "            with MCPClient(server_url=server_url, timeout=30.0) as client:",
   "                result = client.invoke_tool(self.MCP_TOOL_NAME, params)",
   "                return self._convert_result(result)",
   "",
   "        except ImportError:",
   "            # Fallback to standalone HTTP invocation",
   "            return self._invoke_via_http(server_url, params)",
   "",
   "    def _invoke_via_http(self, server_url: str, params: dict[str, Any]) -> dict[str, Any]:",
   "        \"\"\"Fallback HTTP invocation without Dify's MCPClient.\"\"\"",
   "        import httpx",
   "",
   "        with httpx.Client(timeout=30.0) as client:",
   "            response = client.post(",
   "                server_url,",
   "                json=\x7b",
   "                    'jsonrpc': '2.0',",
   "                    'id': 1,",
   "                    'method': 'tools/call',",
   "                    'params': \x7b",
   "                        'name': self.MCP_TOOL_NAME,",
   "                        'arguments': params,",
   "                    \x7d,",
   "                \x7d,",
   "                headers=\x7b'Content-Type': 'application/json'\x7d,",
   "            )",
   "            response.raise_for_status()",
   "            result = response.json()",
   "            return result.get('result', \x7b\x7d)",
   "",
   "    def _convert_result(self, result: Any) -> dict[str, Any]:",
   "        \"\"\"Convert MCPClient result to dictionary.\"\"\"",
   "        if hasattr(result, 'content'):",
   "            return \x7b",
   "                'content': [",
   "                    \x7b'type': c.type, 'text': getattr(c, 'text', None)\x7d",
   "                    for c in result.content",
   "                ] if result.content else [],",
   "                'structuredContent': result.structuredContent,",
   "                'isError': result.isError,",
   "            \x7d",
   "        return result if isinstance(result, dict) else \x7b'raw': result\x7d",
   "",
   "    def _extract_text(self, result: dict[str, Any]) -> str:",
   "        \"\"\"Extract text content from tool result.\"\"\"",
   "        content = result.get('content', [])",
   "        text_parts = []",
   "",
   "        for item in content:",
   "            if isinstance(item, dict) and item.get('type') == 'text':",
   "                text_parts.append(item.get('text', ''))",
   "            elif hasattr(item, 'type') and item.type == 'text':",
   "                text_parts.append(getattr(item, 'text', ''))",
   "",
   "        return '\\n'.join(text_parts)"] ++ "\n"

/-- The part of the `node.py` template before `{inputs_str}`. -/
def nodePyHead (schema : MCPToolSchema) : String :=
  "\"\"\"\n" ++ formatName schema.name ++ " Node\n\nAuto-generated from MCP tool schema.\n" ++
  (if pyTruthy schema.description then pyStr schema.description else "") ++ "\n\"\"\"\n\n" ++
  "from typing import Any\n\nfrom core.dify_custom_nodes import BaseCustomNode, register_node\n" ++
  "from core.workflow.enums import WorkflowNodeExecutionStatus\nfrom core.workflow.node_events import NodeRunResult\n\n\n" ++
  "@register_node('" ++ schema.node_type ++ "', version='1', author='MCP Node Generator')\n" ++
  "class " ++ schema.class_name ++ "(BaseCustomNode):\n" ++
  "    \"\"\"\n    MCP Tool: " ++ schema.name ++ "\n\n    " ++
  (if pyTruthy schema.description then pyStr schema.description else "No description available.") ++
  "\n    \"\"\"\n\n    # MCP Tool name (server URL is provided via node input)\n" ++
  "    MCP_TOOL_NAME = '" ++ schema.name ++ "'\n\n    @classmethod\n    def version(cls) -> str:\n" ++
  "        return \"1\"\n\n    def _run(self) -> NodeRunResult:\n" ++
  "        \"\"\"Execute MCP tool invocation.\"\"\"\n        # Get MCP server URL from node input\n" ++
  "        mcp_server_url = self.get_input('mcp_server_url', '')\n        if not mcp_server_url:\n" ++
  "            return NodeRunResult(\n                status=WorkflowNodeExecutionStatus.FAILED,\n" ++
  "                inputs=\x7b\x7d,\n                outputs=\x7b\x7d,\n" ++
  "                error=\"MCP Server URL is required\"\n            )\n\n        # Extract inputs\n"

/-- `CustomNodeGenerator._generate_node_py`: the full backend invocation
file content (the `server_url` argument is accepted but, as in the source,
never interpolated into the template). -/
def generateNodePy (schema : MCPToolSchema) (serverUrl : String) : Except PyError String := do
  let props ← schema.propertiesItems
  let required ← schema.requiredFields
  let lineLists ← nodePyInputAndValidation props required
  let inputsStr := String.intercalate "\n" lineLists.1
  let validationsStr := String.join lineLists.2
  let paramsDict := nodePyParamsDict props
  pure (nodePyHead schema ++ inputsStr ++ "\n" ++ validationsStr ++
    "\n\n        # Build tool parameters\n        tool_params = \x7b" ++ paramsDict ++ "\x7d\n" ++
    nodePyStaticTail)

/-- `_generate_index_ts`. -/
def generateIndexTs (schema : MCPToolSchema) : String :=
  let componentName := schema.class_name.replace "Node" ""
  "/**\n * " ++
  formatName schema.name ++
  " - Frontend Components\n *\n * Auto-generated from MCP tool schema.\n */\n\n" ++
  "import manifest from '../manifest.json'\n\nexport \x7b " ++
  componentName ++
  "Node as NodeComponent \x7d from './node'\nexport \x7b " ++
  componentName ++
  "Panel as PanelComponent \x7d from './panel'\nexport \x7b " ++
  (schema.node_type.replace "-" "") ++
  "Default as defaultConfig \x7d from './default'\n\nexport const nodeType = manifest.node_type\nexport \x7b manifest \x7d\n"

/-- `_generate_types_ts`. -/
def generateTypesTs (schema : MCPToolSchema) : Except PyError String := do
  let props ← schema.propertiesItems
  let required ← schema.requiredFields
  let fields ← props.foldlM (fun acc p => do
      let tsType ← getTypescriptType p.2
      let isReq ← pyContainsKey p.1 required
      pure (acc ++ ["  " ++ p.1 ++ (if !isReq then "?" else "") ++ ": " ++ tsType]))
    ["  mcp_server_url: string"]
  let fieldsStr := String.intercalate "\n" fields
  let interfaceName := schema.class_name.replace "Node" "" ++ "NodeData"
  pure ("/**\n * Type definitions for " ++
    formatName schema.name ++
    " Node\n *\n * Auto-generated from MCP tool schema.\n */\n\n" ++
    "import type \x7b CustomNodeData \x7d from '../../../sdk/typescript/src/types'\n\nexport interface " ++
    interfaceName ++
    " extends CustomNodeData \x7b\n  type: '" ++
    schema.node_type ++
    "'\n" ++
    fieldsStr ++
    "\n\x7d\n")

/-- `_generate_node_tsx`. -/
def generateNodeTsx (schema : MCPToolSchema) : Except PyError String := do
  let componentName := schema.class_name.replace "Node" ""
  let interfaceName := componentName ++ "NodeData"
  let props ← schema.propertiesItems
  let displayContent := match props.head? with
    | some p => "data." ++ p.1
    | none => "'MCP Tool'"
  pure ("/**\n * " ++
    formatName schema.name ++
    " Node - Canvas Component\n *\n * Auto-generated from MCP tool schema.\n */\n\nimport React from 'react'\n" ++
    "import type \x7b FC \x7d from 'react'\nimport type \x7b NodeProps \x7d from '../../../sdk/typescript/src/types'\n" ++
    "import type \x7b " ++
    interfaceName ++
    " \x7d from './types'\n\nexport const " ++
    componentName ++
    "Node: FC<NodeProps<" ++
    interfaceName ++
    ">> = (\x7b data \x7d) => \x7b\n  return (\n    <div className=\"mb-1 px-3 py-1\">\n" ++
    "      <div className=\"flex items-center gap-2 rounded-md bg-gray-50 dark:bg-gray-800/50 p-2\">\n" ++
    "        <div className=\"text-2xl\">" ++
    getIcon schema ++
    "</div>\n        <div className=\"flex-1\">\n" ++
    "          <div className=\"text-sm font-medium text-gray-900 dark:text-gray-100 truncate\">\n            \x7b" ++
    displayContent ++
    " || '" ++
    formatName schema.name ++
    "'\x7d\n          </div>\n          <div className=\"text-xs text-gray-500 dark:text-gray-400\">\n            MCP Tool\n" ++
    "          </div>\n        </div>\n      </div>\n    </div>\n  )\n\x7d\n\nexport default React.memo(" ++
    componentName ++
    "Node)\n")

/-- One enum option of the panel Select control:
`{{ value: '{v}', label: '{format_name(str(v))}' }}`. -/
def panelEnumOption (v : Json) : String :=
  "\x7b value: '" ++ pyStr v ++ "', label: '" ++ formatName (pyStr v) ++ "' \x7d"

/-- The optional description hint of a panel form field. -/
def panelDescDiv (descriptionVal : Json) : String :=
  if pyTruthy descriptionVal then
    "<div className=\"mt-1 text-xs text-gray-500\">" ++ pyStr descriptionVal ++ "</div>"
  else ""

/-- The fixed MCP Server URL form field that `_generate_panel_tsx` places
first. -/
def panelServerUrlField : String :=
  "\n        <Field title=\"MCP Server URL\" required>\n          <Input\n" ++
  "            value=\x7binputs.mcp_server_url || ''\x7d\n            onChange=\x7bhandleFieldChange('mcp_server_url')\x7d\n" ++
  "            placeholder=\"MCP server endpoint URL\"\n          />\n" ++
  "          <div className=\"mt-1 text-xs text-gray-500\">SSE or HTTP endpoint for MCP server</div>\n" ++
  "        </Field>"

/-- One per-parameter form-field block of `_generate_panel_tsx`, chosen by
the parameter's declared type: enum Select, boolean Switch, numeric Input,
or text Input (masked when the name contains a sensitivity keyword). -/
def panelFieldBlock (propName : String) (propSchema : Json) (required : Json) :
    Except PyError String := do
  match propSchema with
  | .obj pf =>
    let title := formatName propName
    let descriptionVal := (pyGet pf "description").getD (.str "")
    let descDiv := panelDescDiv descriptionVal
    let isRequired ← pyContainsKey propName required
    let propType := (pyGet pf "type").getD (.str "string")
    match pyGet pf "enum" with
    | some enumVal => do
      let enumItems ← pyIter enumVal
      let options := String.intercalate ", " (enumItems.map panelEnumOption)
      -- `.get("default", prop_schema["enum"][0])` evaluates the fallback first
      let enumHead ← pyIndexZero enumVal
      let selectValue := (pyGet pf "default").getD enumHead
      pure ("\n        <Field title=\"" ++
        title ++
        "\"" ++
        (if isRequired then " required" else "") ++
        ">\n          <Select\n            value=\x7binputs." ++
        propName ++
        " || '" ++
        pyStr selectValue ++
        "'\x7d\n            onChange=\x7bhandleFieldChange('" ++
        propName ++
        "')\x7d\n            options=\x7b[" ++
        options ++
        "]\x7d\n          />\n          " ++
        descDiv ++
        "\n        </Field>")
    | none =>
      let textBlock :=
        let isPassword := pyIn "password" (pyLower propName) ||
          pyIn "key" (pyLower propName) || pyIn "secret" (pyLower propName)
        "\n        <Field title=\"" ++
          title ++
          "\"" ++
          (if isRequired then " required" else "") ++
          ">\n          <Input\n            " ++
          (if isPassword then "type=\"password\"" else "") ++
          "\n            value=\x7binputs." ++
          propName ++
          " || ''\x7d\n            onChange=\x7bhandleFieldChange('" ++
          propName ++
          "')\x7d\n            placeholder=\"Enter " ++
          pyLower title ++
          "\"\n          />\n          " ++
          descDiv ++
          "\n        </Field>"
      match propType with
      | .str t =>
        if t = "boolean" then
          pure ("\n        <Field title=\"" ++
          title ++
          "\">\n          <Switch\n            checked=\x7b!!inputs." ++
          propName ++
          "\x7d\n            onChange=\x7b(checked) => handleFieldChange('" ++
          propName ++
          "')(checked)\x7d\n          />\n          " ++
          descDiv ++
          "\n        </Field>")
        else if t = "number" ∨ t = "integer" then
          pure ("\n        <Field title=\"" ++
          title ++
          "\"" ++
          (if isRequired then " required" else "") ++
          ">\n          <Input\n            type=\"number\"\n            value=\x7bString(inputs." ++
          propName ++
          " ?? '')\x7d\n            onChange=\x7b(v) => handleFieldChange('" ++
          propName ++
          "')(v ? Number(v) : undefined)\x7d\n            placeholder=\"Enter " ++
          pyLower title ++
          "\"\n          />\n          " ++
          descDiv ++
          "\n        </Field>")
        else pure textBlock
      | _ => pure textBlock
  | _ => throw .attributeError

/-- `_generate_panel_tsx`. -/
def generatePanelTsx (schema : MCPToolSchema) : Except PyError String := do
  let componentName := schema.class_name.replace "Node" ""
  let interfaceName := componentName ++ "NodeData"
  let props ← schema.propertiesItems
  let required ← schema.requiredFields
  let fieldBlocks ← props.foldlM (fun acc p => do
      let b ← panelFieldBlock p.1 p.2 required
      pure (acc ++ [b])) [panelServerUrlField]
  let fieldsStr := String.intercalate "\n" fieldBlocks
  pure ("/**\n * " ++
    formatName schema.name ++
    " Node - Configuration Panel\n *\n * Auto-generated from MCP tool schema.\n */\n\nimport React from 'react'\n" ++
    "import type \x7b FC \x7d from 'react'\nimport \x7b useConfig \x7d from './use-config'\n" ++
    "import type \x7b NodePanelProps \x7d from '../../../sdk/typescript/src/types'\nimport type \x7b " ++
    interfaceName ++
    " \x7d from './types'\n\ninterface FieldProps \x7b\n  title: string\n  required?: boolean\n  children: React.ReactNode\n\x7d\n\n" ++
    "const Field: FC<FieldProps> = (\x7b title, required, children \x7d) => (\n  <div className=\"mb-4\">\n" ++
    "    <label className=\"block text-sm font-medium text-gray-700 dark:text-gray-300 mb-2\">\n" ++
    "      \x7btitle\x7d\x7brequired && <span className=\"text-red-500 ml-1\">*</span>\x7d\n    </label>\n    \x7bchildren\x7d\n  </div>\n" ++
    ")\n\ninterface InputProps \x7b\n  value: string\n  onChange: (value: string) => void\n  placeholder?: string\n" ++
    "  type?: string\n\x7d\n\nconst Input: FC<InputProps> = (\x7b value, onChange, placeholder, type = 'text' \x7d) => (\n" ++
    "  <input\n    type=\x7btype\x7d\n    value=\x7bvalue\x7d\n    onChange=\x7b(e) => onChange(e.target.value)\x7d\n" ++
    "    placeholder=\x7bplaceholder\x7d\n" ++
    "    className=\"w-full px-3 py-2 border border-gray-300 dark:border-gray-600 rounded-md bg-white dark:bg-gray-800 text-gray-900 dark:text-gray-100\"\n" ++
    "  />\n)\n\ninterface SelectProps \x7b\n  value: string\n  onChange: (value: string) => void\n" ++
    "  options: Array<\x7b value: string; label: string \x7d>\n\x7d\n\n" ++
    "const Select: FC<SelectProps> = (\x7b value, onChange, options \x7d) => (\n  <select\n    value=\x7bvalue\x7d\n" ++
    "    onChange=\x7b(e) => onChange(e.target.value)\x7d\n" ++
    "    className=\"w-full px-3 py-2 border border-gray-300 dark:border-gray-600 rounded-md bg-white dark:bg-gray-800 text-gray-900 dark:text-gray-100\"\n" ++
    "  >\n    \x7boptions.map((option) => (\n      <option key=\x7boption.value\x7d value=\x7boption.value\x7d>\n" ++
    "        \x7boption.label\x7d\n      </option>\n    ))\x7d\n  </select>\n)\n\ninterface SwitchProps \x7b\n  checked: boolean\n" ++
    "  onChange: (checked: boolean) => void\n\x7d\n\nconst Switch: FC<SwitchProps> = (\x7b checked, onChange \x7d) => (\n" ++
    "  <button\n    type=\"button\"\n    role=\"switch\"\n    aria-checked=\x7bchecked\x7d\n" ++
    "    onClick=\x7b() => onChange(!checked)\x7d\n" ++
    "    className=\x7b`relative inline-flex h-6 w-11 items-center rounded-full transition-colors $\x7bchecked ? 'bg-blue-600' : 'bg-gray-200 dark:bg-gray-700'\x7d`\x7d\n" ++
    "  >\n" ++
    "    <span className=\x7b`inline-block h-4 w-4 transform rounded-full bg-white transition-transform $\x7bchecked ? 'translate-x-6' : 'translate-x-1'\x7d`\x7d />\n" ++
    "  </button>\n)\n\nexport const " ++
    componentName ++
    "Panel: FC<NodePanelProps<" ++
    interfaceName ++
    ">> = (\x7b id, data \x7d) => \x7b\n  const \x7b inputs, handleFieldChange, readOnly \x7d = useConfig(id, data)\n\n  return (\n" ++
    "    <div className=\"mt-2\">\n      <div className=\"space-y-4 px-4 pb-4\">\n" ++
    fieldsStr ++
    "\n\n        <div className=\"rounded-md bg-blue-50 dark:bg-blue-900/20 p-3\">\n" ++
    "          <div className=\"text-sm font-medium text-blue-900 dark:text-blue-100 mb-1\">\n            " ++
    getIcon schema ++
    " Output Variables\n          </div>\n" ++
    "          <div className=\"text-xs text-blue-700 dark:text-blue-300 space-y-1\">\n" ++
    "            <div>• <code>text</code> - Text content from result</div>\n" ++
    "            <div>• <code>result</code> - Full result object</div>\n" ++
    "            <div>• <code>is_error</code> - Whether tool returned error</div>\n          </div>\n        </div>\n" ++
    "      </div>\n    </div>\n  )\n\x7d\n\nexport default React.memo(" ++
    componentName ++
    "Panel)\n")

/-- `_generate_use_config_ts`. -/
def generateUseConfigTs (schema : MCPToolSchema) : String :=
  let interfaceName := schema.class_name.replace "Node" "" ++ "NodeData"
  "/**\n * Configuration hook for " ++
  formatName schema.name ++
  " Node\n *\n * Auto-generated from MCP tool schema.\n */\n\nimport \x7b useCallback, useState \x7d from 'react'\n" ++
  "import \x7b produce \x7d from 'immer'\nimport type \x7b " ++
  interfaceName ++
  " \x7d from './types'\nimport type \x7b UseConfigReturn \x7d from '../../../sdk/typescript/src/types'\n\n" ++
  "export const useConfig = (\n  id: string,\n  payload: " ++
  interfaceName ++
  "\n): UseConfigReturn<" ++
  interfaceName ++
  "> => \x7b\n  const [inputs, setInputs] = useState<" ++
  interfaceName ++
  ">(payload)\n\n  const handleFieldChange = useCallback(\n    (field: keyof " ++
  interfaceName ++
  ") => \x7b\n      return (value: any) => \x7b\n        const newInputs = produce(inputs, (draft) => \x7b\n" ++
  "          ;(draft as any)[field] = value\n        \x7d)\n        setInputs(newInputs)\n      \x7d\n    \x7d,\n" ++
  "    [inputs, id]\n  )\n\n  const handleBulkChange = useCallback(\n    (changes: Partial<" ++
  interfaceName ++
  ">) => \x7b\n      const newInputs = produce(inputs, (draft) => \x7b\n        Object.assign(draft, changes)\n      \x7d)\n" ++
  "      setInputs(newInputs)\n    \x7d,\n    [inputs, id]\n  )\n\n  return \x7b\n    inputs,\n    readOnly: false,\n" ++
  "    handleFieldChange,\n    handleBulkChange,\n  \x7d\n\x7d\n"

/-- One per-parameter default entry of `_generate_default_ts`.  An explicit
`null` default is indistinguishable from an absent key for
`prop_schema.get('default')`, so both take the type-based fallback. -/
def defaultTsEntry (propName : String) (propSchema : Json) : Except PyError String :=
  match propSchema with
  | .obj pf =>
    .ok (match (pyGet pf "default").getD Json.null with
      | Json.null =>
        match (pyGet pf "type").getD Json.null with
        | Json.str "boolean" => "    " ++ propName ++ ": false,"
        | _ => "    " ++ propName ++ ": '',"
      | Json.str s => "    " ++ propName ++ ": '" ++ s ++ "',"
      | Json.bool b => "    " ++ propName ++ ": " ++ (if b then "true" else "false") ++ ","
      | d => "    " ++ propName ++ ": " ++ pyStr d ++ ",")
  | _ => .error .attributeError

/-- The fixed MCP Server URL validation block of `_generate_default_ts`. -/
def defaultTsServerUrlValidation : String :=
  "\n    if (!payload.mcp_server_url || payload.mcp_server_url.trim() === '') \x7b\n      return \x7b\n" ++
  "        isValid: false,\n" ++
  "        errorMessage: t?.('workflow.nodes.mcp.serverUrlRequired') || 'MCP Server URL is required',\n      \x7d\n" ++
  "    \x7d"

/-- One per-required-parameter validation block of `_generate_default_ts`. -/
def defaultTsValidationBlock (nodeType : String) (propName : String) : String :=
  "\n    if (!payload." ++
  propName ++
  " || (typeof payload." ++
  propName ++
  " === 'string' && payload." ++
  propName ++
  ".trim() === '')) \x7b\n      return \x7b\n        isValid: false,\n        errorMessage: t?.('workflow.nodes." ++
  nodeType ++
  "." ++
  propName ++
  "Required') || '" ++
  formatName propName ++
  " is required',\n      \x7d\n    \x7d"

/-- `_generate_default_ts`. -/
def generateDefaultTs (schema : MCPToolSchema) : Except PyError String := do
  let interfaceName := schema.class_name.replace "Node" "" ++ "NodeData"
  let varName := schema.node_type.replace "-" "" ++ "Default"
  let props ← schema.propertiesItems
  let required ← schema.requiredFields
  let defaults ← props.foldlM (fun acc p => do
      let e ← defaultTsEntry p.1 p.2
      pure (acc ++ [e]))
    ["    title: '" ++ formatName schema.name ++ "',",
     "    desc: '" ++ (if pyTruthy schema.description then pyStr schema.description else "MCP Tool") ++ "',",
     "    type: '" ++ schema.node_type ++ "',",
     "    mcp_server_url: '',"]
  let defaultsStr := String.intercalate "\n" defaults
  let reqItems ← pyIter required
  let validationList ← reqItems.foldlM (fun acc r => do
      match r with
      | .str propName => pure (acc ++ [defaultTsValidationBlock schema.node_type propName])
      | _ => throw PyError.attributeError)
    [defaultTsServerUrlValidation]
  let validationsStr := String.join validationList
  pure ("/**\n * Default configuration for " ++
    formatName schema.name ++
    " Node\n *\n * Auto-generated from MCP tool schema.\n */\n\n" ++
    "import type \x7b NodeDefault, ValidationResult \x7d from '../../../sdk/typescript/src/types'\n" ++
    "import \x7b VarType \x7d from '../../../sdk/typescript/src/types'\nimport type \x7b " ++
    interfaceName ++
    " \x7d from './types'\n\nexport const " ++
    varName ++
    ": NodeDefault<" ++
    interfaceName ++
    "> = \x7b\n  defaultValue: \x7b\n" ++
    defaultsStr ++
    "\n  \x7d,\n\n  checkValid(payload: " ++
    interfaceName ++
    ", t: any): ValidationResult \x7b" ++
    validationsStr ++
    "\n\n    return \x7b\n      isValid: true,\n    \x7d\n  \x7d,\n\n  getOutputVars(payload: " ++
    interfaceName ++
    ") \x7b\n    return [\n      \x7b\n        variable: 'text',\n        type: VarType.String,\n" ++
    "        description: 'Text content from tool result',\n      \x7d,\n      \x7b\n        variable: 'result',\n" ++
    "        type: VarType.Object,\n        description: 'Full tool result object',\n      \x7d,\n      \x7b\n" ++
    "        variable: 'is_error',\n        type: VarType.Boolean,\n" ++
    "        description: 'Whether the tool returned an error',\n      \x7d,\n    ]\n  \x7d,\n\x7d\n")

/-- The `files` dict of `_generate_frontend` (filename → content); the
contents are all synthesized before any of them is written. -/
def generateFrontendFiles (schema : MCPToolSchema) :
    Except PyError (List (String × String)) := do
  let typesTs ← generateTypesTs schema
  let nodeTsx ← generateNodeTsx schema
  let panelTsx ← generatePanelTsx schema
  let defaultTs ← generateDefaultTs schema
  pure [("index.ts", generateIndexTs schema), ("types.ts", typesTs),
        ("node.tsx", nodeTsx), ("panel.tsx", panelTsx),
        ("use-config.ts", generateUseConfigTs schema), ("default.ts", defaultTs)]

/-- The generator's output tree: a map from file path to file content. -/
def FS : Type := String → Option String

/-- `open(path, 'w')` followed by `write(content)`: create or overwrite. -/
def writeFS (fs : FS) (path content : String) : FS :=
  fun q => if q = path then some content else fs q

/-- `CustomNodeGenerator.generate`: write the bundle for one schema under
`outputDir ++ "/" ++ schema.node_type`, in the source's write order,
stopping at the first raised error (files already written stay written).
Returns the resulting file system and the raised error, if any. -/
def CustomNodeGenerator.generate (outputDir : String) (schema : MCPToolSchema)
    (serverUrl : String) (fs : FS) : FS × Option PyError :=
  let nodeDir := outputDir ++ "/" ++ schema.node_type
  match generateManifestDoc schema with
  | .error e => (fs, some e)
  | .ok manifest =>
    let fs := writeFS fs (nodeDir ++ "/manifest.json") (renderJson 0 manifest)
    let fs := writeFS fs (nodeDir ++ "/backend/__init__.py") ""
    match generateNodePy schema serverUrl with
    | .error e => (fs, some e)
    | .ok nodeCode =>
      let fs := writeFS fs (nodeDir ++ "/backend/node.py") nodeCode
      match generateFrontendFiles schema with
      | .error e => (fs, some e)
      | .ok files =>
        (files.foldl (fun acc pc => writeFS acc (nodeDir ++ "/frontend/" ++ pc.1) pc.2) fs,
         none)

/-- The slug-derivation algorithm exactly as the specification words it
(`to_slug_identifier`): lowercase, replace every character outside
`[a-z0-9]` with a hyphen, collapse consecutive hyphens, strip outer
hyphens, prefix the namespace tag. -/
def specSlugIdentifier (name : String) : String :=
  let lowered := (pyLower name).toList
  let replaced := lowered.map (fun c =>
    if ('a' ≤ c ∧ c ≤ 'z') ∨ ('0' ≤ c ∧ c ≤ '9') then c else '-')
  "mcp-" ++ String.mk (stripChar '-' (collapseHyphens replaced))

/-- A raw (pre-construction) tool record: name, description, input schema,
output schema, annotations. -/
def makeFromRaw (r : String × Json × Json × Json × Json) : MCPToolSchema :=
  MCPToolSchema.make r.1 r.2.1 r.2.2.1 r.2.2.2.1 r.2.2.2.2

/-- Parameter schemas (of bounded depth) on which the two type mappings
are defended to be total: any consulted `enum` value is a list, and any
consulted `items` value is again such a schema. -/
def schemaWFDepth : Nat → Json → Bool
  | 0, _ => false
  | n+1, j =>
    match j with
    | .obj fields =>
      (match pyGet fields "enum" with
       | none => true
       | some (.arr _) => true
       | some _ => false) &&
      (match pyGet fields "items" with
       | none => true
       | some it => schemaWFDepth n it)
    | _ => false

/-- Apply a sequence of file writes in order. -/
def applyWrites (fs : FS) (ws : List (String × String)) : FS :=
  ws.foldl (fun acc pc => writeFS acc pc.1 pc.2) fs

/-- The last content written to `q` by a write sequence, if any. -/
def lastVal (ws : List (String × String)) (q : String) : Option String :=
  ws.foldl (fun acc pc => if pc.1 = q then some pc.2 else acc) none

/-- The (path, content) writes `CustomNodeGenerator.generate` performs, in
order, as determined by the schema and endpoint alone. -/
def bundleWrites (outputDir : String) (schema : MCPToolSchema) (serverUrl : String) :
    List (String × String) :=
  let nodeDir := outputDir ++ "/" ++ schema.node_type
  match generateManifestDoc schema with
  | .error _ => []
  | .ok manifest =>
    let base := [(nodeDir ++ "/manifest.json", renderJson 0 manifest),
                 (nodeDir ++ "/backend/__init__.py", "")]
    match generateNodePy schema serverUrl with
    | .error _ => base
    | .ok nodeCode =>
      let base := base ++ [(nodeDir ++ "/backend/node.py", nodeCode)]
      match generateFrontendFiles schema with
      | .error _ => base
      | .ok files => base ++ files.map (fun pc => (nodeDir ++ "/frontend/" ++ pc.1, pc.2))

/-- The error, if any, raised by `CustomNodeGenerator.generate`, again a
function of the schema and endpoint alone. -/
def bundleOutcome (schema : MCPToolSchema) (serverUrl : String) : Option PyError :=
  match generateManifestDoc schema with
  | .error e => some e
  | .ok _ =>
    match generateNodePy schema serverUrl with
    | .error e => some e
    | .ok _ =>
      match generateFrontendFiles schema with
      | .error e => some e
      | .ok _ => none

/-- A concrete stand-in for `json.loads` used to exercise the handshake
theorems: decodes the empty object and the singleton endpoint object,
rejects everything else. -/
def decodeStub (s : String) : Except PyError Json :=
  if s = "\x7b\x7d" then .ok (Json.obj [])
  else if s = "\x7b\"endpoint\": \"/sess\"\x7d" then .ok (Json.obj [("endpoint", Json.str "/sess")])
  else .error .jsonError

theorem fromDict_toDict (t : MCPToolSchema) :
    MCPToolSchema.fromDict (MCPToolSchema.toDict t) =
      .ok (MCPToolSchema.make t.name t.description t.input_schema t.output_schema t.annotations) :=
  rfl

theorem fromJsonFileDoc_arr (xs : List Json) :
    fromJsonFileDoc (Json.arr xs) = xs.mapM MCPToolSchema.fromDict :=
  rfl

@[simp] theorem except_pure_def {α : Type} (a : α) :
    (pure a : Except PyError α) = Except.ok a := rfl

/-- C1: for every schema parameter the generated backend file pulls the
parameter by name with its declared default; the claim says an absent
default is passed through unchanged so that the emitted line stays
syntactically valid.  The code instead re-quotes the absent-default
sentinel `"''"` (it is itself a `str`), emitting four consecutive single
quotes — an unterminated triple-quoted string, not the claimed
pass-through. -/
theorem nodePy_inputLine_absent_default :
    nodePyInputLine "path" (Json.obj []) =
      .ok "        path = self.get_input('path', '''')" ∧
    nodePyInputLine "path" (Json.obj []) ≠
      .ok "        path = self.get_input('path', '')" := by
  refine ⟨rfl, fun h => ?_⟩
  injection h with h'
  exact absurd h' (by decide)

/-- C3: saving a collection of constructed tool schemas to the flat JSON
document and loading that document back yields the same collection — same
length, equal non-derived fields, and equal (recomputed) derived fields. -/
theorem save_load_roundtrip (ts : List (String × Json × Json × Json × Json)) :
    fromJsonFileDoc (saveSchemasDoc (ts.map makeFromRaw)) =
      .ok (ts.map makeFromRaw) := by
  rw [saveSchemasDoc, fromJsonFileDoc_arr]
  induction ts with
  | nil => rfl
  | cons r rest ih =>
    simp only [List.map_cons, List.mapM_cons]
    rw [show MCPToolSchema.fromDict (MCPToolSchema.toDict (makeFromRaw r)) =
          .ok (makeFromRaw r) from rfl]
    simp only [bind, Except.bind]
    rw [ih]
    rfl

/-- C9: whatever a loaded flat record contains, the derived identifier
fields of the resulting schema are recomputed from the record's `name`
alone, so stored `node_type`/`class_name` values can never make them
inconsistent with the name. -/
theorem fromDict_recomputes_derived (data : Json) (t : MCPToolSchema)
    (h : MCPToolSchema.fromDict data = .ok t) :
    t.node_type = generateNodeType t.name ∧
    t.class_name = generateClassName t.name ∧
    (∀ fields, data = Json.obj fields → pyGet fields "name" = some (Json.str t.name)) := by
  match data with
  | .null | .bool _ | .num _ | .str _ | .arr _ =>
    exact absurd h (by simp [MCPToolSchema.fromDict])
  | .obj fields =>
    rw [MCPToolSchema.fromDict] at h
    match hname : pyGet fields "name" with
    | none => rw [hname] at h; exact absurd h (by simp)
    | some (.str n) =>
      rw [hname] at h
      injection h with h'
      subst h'
      exact ⟨rfl, rfl, fun fs hfs => by injection hfs with h2; subst h2; exact hname⟩
    | some .null | some (.bool _) | some (.num _) | some (.arr _) | some (.obj _) =>
      rw [hname] at h; exact absurd h (by simp)

theorem fromDict_recomputes_derived_witness :
    (MCPToolSchema.make "list_directory" Json.null (Json.obj []) Json.null Json.null).node_type =
      generateNodeType "list_directory" ∧
    (MCPToolSchema.make "list_directory" Json.null (Json.obj []) Json.null Json.null).class_name =
      generateClassName "list_directory" :=
  let h := fromDict_recomputes_derived
    (Json.obj [("name", Json.str "list_directory"),
               ("node_type", Json.str "evil-tampered"),
               ("class_name", Json.str "EvilTampered")])
    (MCPToolSchema.make "list_directory" Json.null (Json.obj []) Json.null Json.null)
    rfl
  ⟨h.1, h.2.1⟩

/-- C5 counterexample: a parameter schema whose `enum` is present but whose
declared type tag is `number` is mapped to `number`, not to the claimed
string-literal union built from the enum values. -/
theorem tsType_enum_not_regardless :
    getTypescriptType (Json.obj [("type", Json.str "number"),
      ("enum", Json.arr [Json.str "a"])]) = .ok "number" ∧
    tsEnumUnion [Json.str "a"] = "'a'" ∧
    "number" ≠ "'a'" := by
  refine ⟨?_, rfl, by decide⟩
  simp [getTypescriptType, pyGet, List.find?]

/-- C7 counterexample: two endpoint URLs with the same parsed path (only
the query differs) are dispatched to different protocol variants, because
`_extract_tools_standalone` tests `'/sse' in self.server_url` on the whole
URL; variant selection is therefore not a function of the path alone. -/
theorem variant_not_path_only :
    urlparsePath "http://h/api?q=/sse" = "/api" ∧
    urlparsePath "http://h/api" = "/api" ∧
    selectVariant "http://h/api?q=/sse" = TransportVariant.sse ∧
    selectVariant "http://h/api" = TransportVariant.http :=
  ⟨by decide, by decide, by decide, by decide⟩

/-- C7 amended: the handshake (SSE) variant is selected iff `'/sse'` occurs
anywhere in the endpoint URL or the URL's path ends with `/sse`; otherwise
the direct (HTTP) variant is used. -/
theorem variant_selection (url : String) :
    (pyIn "/sse" url = false → pyEndsWith "/sse" (urlparsePath url) = false →
      selectVariant url = TransportVariant.http) ∧
    (pyIn "/sse" url = true → selectVariant url = TransportVariant.sse) ∧
    (pyEndsWith "/sse" (urlparsePath url) = true → selectVariant url = TransportVariant.sse) := by
  refine ⟨fun h1 h2 => ?_, fun h1 => ?_, fun h2 => ?_⟩ <;>
    simp [selectVariant, usesSSEVariant, *]

theorem variant_selection_witness :
    selectVariant "http://example.com/api" = TransportVariant.http ∧
    selectVariant "http://example.com/sse" = TransportVariant.sse :=
  ⟨(variant_selection "http://example.com/api").1 (by decide) (by decide),
   (variant_selection "http://example.com/sse").2.1 (by decide)⟩


theorem char_toNat_ofNat_valid (n : Nat) (h : n.isValidChar) : (Char.ofNat n).toNat = n := by
  rw [Char.ofNat, dif_pos h]
  rfl

theorem char_le_iff_toNat {a b : Char} : a ≤ b ↔ a.toNat ≤ b.toNat := by
  rw [Char.le_def, UInt32.le_def, BitVec.le_def]
  rfl

theorem toLower_not_upper (c : Char) : ('A' ≤ c.toLower ∧ c.toLower ≤ 'Z') → False := by
  intro ⟨h1, h2⟩
  rw [char_le_iff_toNat] at h1 h2
  unfold Char.toLower at h1 h2
  simp only [] at h1 h2
  by_cases h : c.toNat ≥ 65 ∧ c.toNat ≤ 90
  · rw [if_pos h] at h1 h2
    rw [char_toNat_ofNat_valid (c.toNat + 32) (Or.inl (by omega))] at h1 h2
    have hZ : ('Z' : Char).toNat = 90 := rfl
    omega
  · rw [if_neg h] at h1 h2
    have hA : ('A' : Char).toNat = 65 := rfl
    have hZ : ('Z' : Char).toNat = 90 := rfl
    omega

theorem charReplaceAgrees (c : Char) :
    (if isAlnumAscii (Char.toLower c) then Char.toLower c else '-') =
    (if ('a' ≤ Char.toLower c ∧ Char.toLower c ≤ 'z') ∨
        ('0' ≤ Char.toLower c ∧ Char.toLower c ≤ '9')
      then Char.toLower c else '-') := by
  have hup := toLower_not_upper c
  simp only [isAlnumAscii]
  by_cases h1 : ('a' ≤ Char.toLower c ∧ Char.toLower c ≤ 'z') ∨
      ('0' ≤ Char.toLower c ∧ Char.toLower c ≤ '9')
  · rw [if_pos h1]
    rcases h1 with h | h
    · simp [h]
    · simp [h]
  · rw [if_neg h1]
    rw [if_neg]
    intro hcon
    simp only [decide_eq_true_eq] at hcon
    rcases hcon with h | h | h
    · exact h1 (Or.inl h)
    · exact hup h
    · exact h1 (Or.inr h)

/-- C4: the identifier derivation follows the algorithm exactly as the
specification words it — on an already-lowercased name the code's
character class `[a-zA-Z0-9]` coincides with the spec's `[a-z0-9]` — and
the `list_directory` scenario yields slug `mcp-list-directory` and type
identifier `MCPListDirectoryNode`. -/
theorem identifier_derivation (name : String) :
    generateNodeType name = specSlugIdentifier name ∧
    generateNodeType "list_directory" = "mcp-list-directory" ∧
    generateClassName "list_directory" = "MCPListDirectoryNode" := by
  refine ⟨?_, by decide, by decide⟩
  unfold generateNodeType specSlugIdentifier
  have hmap : (pyLower name).toList.map (fun c => if isAlnumAscii c then c else '-') =
      (pyLower name).toList.map (fun c =>
        if ('a' ≤ c ∧ c ≤ 'z') ∨ ('0' ≤ c ∧ c ≤ '9') then c else '-') := by
    apply List.map_congr_left
    intro a ha
    have ha' : a ∈ name.toList.map Char.toLower := ha
    obtain ⟨c, _, hc⟩ := List.mem_map.mp ha'
    subst hc
    exact charReplaceAgrees c
  rw [hmap]

theorem pyGet_cons (p : String × Json) (l : List (String × Json)) (k : String) :
    pyGet (p :: l) k = if p.1 == k then some p.2 else pyGet l k := by
  by_cases hp : p.1 == k <;> simp [pyGet, List.find?, hp]

theorem pyGet_pySet_self (l : List (String × Json)) (k : String) (v : Json) :
    pyGet (pySet l k v) k = some v := by
  induction l with
  | nil => simp [pySet, pyGet, List.find?]
  | cons p rest ih =>
    simp only [pySet]
    by_cases hp : (p.1 == k) = true
    · rw [if_pos hp, pyGet_cons]
      simp [hp]
    · rw [if_neg hp, pyGet_cons, if_neg hp]
      exact ih

theorem pyGet_pySet_other (l : List (String × Json)) (k k' : String) (v : Json)
    (h : (k' == k) = false) : pyGet (pySet l k' v) k = pyGet l k := by
  induction l with
  | nil => simp [pySet, pyGet, List.find?, h]
  | cons p rest ih =>
    simp only [pySet]
    by_cases hp : (p.1 == k') = true
    · have hp1 : p.1 = k' := by simpa using hp
      rw [if_pos hp, pyGet_cons, pyGet_cons]
      simp [hp1, h]
    · rw [if_neg hp, pyGet_cons, pyGet_cons, ih]

/-- C10: a parameter whose schema carries an explicit `null` default is
treated by the generated default-values module as having no default at
all — its entry is the type-based fallback (`false` for a boolean-typed
parameter, otherwise `''`) — whereas the manifest input entry emits the
stored `null` under its `default` key. -/
theorem defaultTs_null_default (propName : String) (pf : List (String × Json))
    (hDefault : pyGet pf "default" = some Json.null) :
    (pyGet pf "type" = some (Json.str "boolean") →
      defaultTsEntry propName (Json.obj pf) = .ok ("    " ++ propName ++ ": false,")) ∧
    (∀ tv, pyGet pf "type" = some tv → tv ≠ Json.str "boolean" →
      defaultTsEntry propName (Json.obj pf) = .ok ("    " ++ propName ++ ": '',")) ∧
    (pyGet pf "type" = none →
      defaultTsEntry propName (Json.obj pf) = .ok ("    " ++ propName ++ ": '',")) ∧
    (∀ required out, manifestInputDef propName (Json.obj pf) required = Except.ok out →
      ∃ ofields, out = Json.obj ofields ∧ pyGet ofields "default" = some Json.null) := by
  refine ⟨fun hT => ?_, fun tv hT hne => ?_, fun hT => ?_, fun required out h => ?_⟩
  · simp [defaultTsEntry, hDefault, hT]
  · rcases tv with _ | b | n | s | xs | fs
    · simp [defaultTsEntry, hDefault, hT]
    · simp [defaultTsEntry, hDefault, hT]
    · simp [defaultTsEntry, hDefault, hT]
    · have hs : s ≠ "boolean" := fun hcon => hne (by rw [hcon])
      simp [defaultTsEntry, hDefault, hT, hs]
    · simp [defaultTsEntry, hDefault, hT]
    · simp [defaultTsEntry, hDefault, hT]
  · simp [defaultTsEntry, hDefault, hT]
  · unfold manifestInputDef at h
    simp only [hDefault] at h
    cases hreq : pyContainsKey propName required with
    | error e => rw [hreq] at h; simp [bind, Except.bind] at h
    | ok b =>
      rw [hreq] at h
      simp only [bind, Except.bind, pure, Except.pure] at h
      injection h with h'
      refine ⟨_, h'.symm, ?_⟩
      cases hd : pyGet pf "description" <;> cases he : pyGet pf "enum" <;> cases b <;>
        simp only [hd, he, if_true, if_false] <;>
        first
          | (rw [pyGet_pySet_other _ _ _ _ (by decide)]
             exact pyGet_pySet_self _ _ _)
          | exact pyGet_pySet_self _ _ _

theorem defaultTs_null_default_witness :
    defaultTsEntry "strange" (Json.obj [("default", Json.null)]) =
      .ok "    strange: '',"
    ∧ manifestInputDef "strange" (Json.obj [("default", Json.null)]) (Json.arr []) =
        .ok (Json.obj [("type", Json.str "string"), ("title", Json.str "Strange"),
                       ("default", Json.null)])
    ∧ ∃ ofields,
        Json.obj [("type", Json.str "string"), ("title", Json.str "Strange"),
                  ("default", Json.null)] = Json.obj ofields ∧
        pyGet ofields "default" = some Json.null :=
  have H := defaultTs_null_default "strange" [("default", Json.null)] rfl
  ⟨H.2.2.1 rfl, rfl, H.2.2.2 (Json.arr []) _ rfl⟩

/-- C6 counterexample: a schema of type `array` whose `items` value is a
number makes both mappings recurse into `items.get('type', ...)`, which
raises `AttributeError` — the mappings are not total over all parameter
schemas. -/
theorem typeMapping_not_total :
    getTypescriptType (Json.obj [("type", Json.str "array"), ("items", Json.num 5)]) =
      .error PyError.attributeError ∧
    getPythonType (Json.obj [("type", Json.str "array"), ("items", Json.num 5)]) =
      .error PyError.attributeError := by
  constructor <;>
    simp [getTypescriptType, getPythonType, pyGet, List.find?, bind, Except.bind]

theorem tsType_array_ok (fields : List (String × Json)) (it : Json) (s : String)
    (hT : pyGet fields "type" = some (Json.str "array"))
    (hI : pyGet fields "items" = some it)
    (hs : getTypescriptType it = .ok s) :
    getTypescriptType (Json.obj fields) = .ok (s ++ "[]") := by
  rw [getTypescriptType]
  simp only [hT, Option.getD_some]
  rw [if_neg (by decide), if_neg (by decide), if_neg (by decide)]
  rw [if_pos trivial]
  split
  · rename_i items heq
    rw [hI] at heq
    injection heq with heq'
    subst heq'
    simp [hs, bind, Except.bind]
  · rename_i heq
    rw [hI] at heq
    exact absurd heq (by simp)

theorem tsType_array_none (fields : List (String × Json))
    (hT : pyGet fields "type" = some (Json.str "array"))
    (hI : pyGet fields "items" = none) :
    getTypescriptType (Json.obj fields) = .ok ("any" ++ "[]") := by
  rw [getTypescriptType]
  simp only [hT, Option.getD_some]
  rw [if_neg (by decide), if_neg (by decide), if_neg (by decide)]
  rw [if_pos trivial]
  split
  · rename_i items heq
    rw [hI] at heq
    exact absurd heq (by simp)
  · rfl

theorem pyType_array_ok (fields : List (String × Json)) (it : Json) (s : String)
    (hT : pyGet fields "type" = some (Json.str "array"))
    (hI : pyGet fields "items" = some it)
    (hs : getPythonType it = .ok s) :
    getPythonType (Json.obj fields) = .ok ("list[" ++ s ++ "]") := by
  rw [getPythonType]
  simp only [hT, Option.getD_some]
  rw [if_neg (by decide), if_neg (by decide), if_neg (by decide), if_neg (by decide)]
  rw [if_pos trivial]
  split
  · rename_i items heq
    rw [hI] at heq
    injection heq with heq'
    subst heq'
    simp [hs, bind, Except.bind]
  · rename_i heq
    rw [hI] at heq
    exact absurd heq (by simp)

theorem pyType_array_none (fields : List (String × Json))
    (hT : pyGet fields "type" = some (Json.str "array"))
    (hI : pyGet fields "items" = none) :
    getPythonType (Json.obj fields) = .ok ("list[" ++ "Any" ++ "]") := by
  rw [getPythonType]
  simp only [hT, Option.getD_some]
  rw [if_neg (by decide), if_neg (by decide), if_neg (by decide), if_neg (by decide)]
  rw [if_pos trivial]
  split
  · rename_i items heq
    rw [hI] at heq
    exact absurd heq (by simp)
  · rfl

/-- C5 amended: the frontend type mapping returns the string-literal union
built from the enum values only when an enumeration is present and the
declared type tag is `string` (a present enumeration is ignored under any
other tag); otherwise it returns `string`, `number` (for number and
integer), `boolean`, the recursively mapped element type suffixed with
`[]` (`any` as the element fallback when `items` is absent), a generic
key-value record for `object`, and `any` for an absent, unrecognized or
non-string type tag. -/
theorem tsType_mapping (fields : List (String × Json)) :
    (∀ vs, pyGet fields "enum" = some (Json.arr vs) →
      pyGet fields "type" = some (Json.str "string") →
      getTypescriptType (Json.obj fields) = .ok (tsEnumUnion vs)) ∧
    (pyGet fields "enum" = none → pyGet fields "type" = some (Json.str "string") →
      getTypescriptType (Json.obj fields) = .ok "string") ∧
    (pyGet fields "type" = some (Json.str "number") →
      getTypescriptType (Json.obj fields) = .ok "number") ∧
    (pyGet fields "type" = some (Json.str "integer") →
      getTypescriptType (Json.obj fields) = .ok "number") ∧
    (pyGet fields "type" = some (Json.str "boolean") →
      getTypescriptType (Json.obj fields) = .ok "boolean") ∧
    (pyGet fields "type" = some (Json.str "object") →
      getTypescriptType (Json.obj fields) = .ok "Record<string, any>") ∧
    (∀ it s, pyGet fields "type" = some (Json.str "array") →
      pyGet fields "items" = some it → getTypescriptType it = .ok s →
      getTypescriptType (Json.obj fields) = .ok (s ++ "[]")) ∧
    (pyGet fields "type" = some (Json.str "array") → pyGet fields "items" = none →
      getTypescriptType (Json.obj fields) = .ok ("any" ++ "[]")) ∧
    (∀ t, pyGet fields "type" = some (Json.str t) →
      t ∉ (["string", "number", "integer", "boolean", "array", "object"] : List String) →
      getTypescriptType (Json.obj fields) = .ok "any") ∧
    (pyGet fields "type" = none →
      getTypescriptType (Json.obj fields) = .ok "any") ∧
    (∀ v, pyGet fields "type" = some v → (∀ s, v ≠ Json.str s) →
      getTypescriptType (Json.obj fields) = .ok "any") := by
  refine ⟨fun vs hE hT => ?_, fun hE hT => ?_, fun hT => ?_, fun hT => ?_,
    fun hT => ?_, fun hT => ?_,
    fun it s hT hI hs => tsType_array_ok fields it s hT hI hs,
    fun hT hI => tsType_array_none fields hT hI,
    fun t hT hne => ?_, fun hT => ?_, fun v hT hv => ?_⟩
  · simp [getTypescriptType, hT, hE, pyIter, tsEnumUnion, bind, Except.bind]
  · simp [getTypescriptType, hT, hE]
  · simp [getTypescriptType, hT]
  · simp [getTypescriptType, hT]
  · simp [getTypescriptType, hT]
  · simp [getTypescriptType, hT]
  · simp only [List.mem_cons, List.not_mem_nil, or_false, not_or] at hne
    obtain ⟨h1, h2, h3, h4, h5, h6⟩ := hne
    simp [getTypescriptType, hT, h1, h2, h3, h4, h5, h6]
  · simp [getTypescriptType, hT]
  · match v with
    | .str s => exact absurd rfl (hv s)
    | .null => simp [getTypescriptType, hT]
    | .bool b => simp [getTypescriptType, hT]
    | .num n => simp [getTypescriptType, hT]
    | .arr xs => simp [getTypescriptType, hT]
    | .obj fs => simp [getTypescriptType, hT]

theorem tsType_mapping_witness :
    getTypescriptType (Json.obj [("type", Json.str "string"),
        ("enum", Json.arr [Json.str "fast", Json.str "deep"])]) =
      .ok (tsEnumUnion [Json.str "fast", Json.str "deep"]) ∧
    getTypescriptType (Json.obj [("type", Json.str "boolean"),
        ("enum", Json.arr [Json.str "fast"])]) = .ok "boolean" ∧
    getTypescriptType (Json.obj [("type", Json.str "string")]) = .ok "string" ∧
    getTypescriptType (Json.obj [("type", Json.str "array"),
        ("items", Json.obj [("type", Json.str "number")])]) = .ok ("number" ++ "[]") :=
  ⟨(tsType_mapping [("type", Json.str "string"),
      ("enum", Json.arr [Json.str "fast", Json.str "deep"])]).1
      [Json.str "fast", Json.str "deep"] rfl rfl,
   (tsType_mapping [("type", Json.str "boolean"),
      ("enum", Json.arr [Json.str "fast"])]).2.2.2.2.1 rfl,
   (tsType_mapping [("type", Json.str "string")]).2.1 rfl rfl,
   (tsType_mapping [("type", Json.str "array"),
      ("items", Json.obj [("type", Json.str "number")])]).2.2.2.2.2.2.1
      (Json.obj [("type", Json.str "number")]) "number" rfl rfl
      (by simp [getTypescriptType, pyGet, List.find?])⟩

/-- C6 amended: both type mappings are total for every type tag — any tag
value, unrecognized strings and the absent case included — on parameter
schemas whose consulted `enum` value (if any) is a list and whose
consulted `items` value (if any) is hereditarily such a schema; absent and
unrecognized tags fall back to `any`/`Any` rather than failing. -/
theorem typeMapping_total (n : Nat) (j : Json) (h : schemaWFDepth n j = true) :
    ((∃ s, getTypescriptType j = .ok s) ∧ (∃ s, getPythonType j = .ok s)) ∧
    (∀ fields, j = Json.obj fields → pyGet fields "type" = none →
      getTypescriptType j = .ok "any" ∧ getPythonType j = .ok "Any") ∧
    (∀ fields t, j = Json.obj fields → pyGet fields "type" = some (Json.str t) →
      t ∉ (["string", "number", "integer", "boolean", "array", "object"] : List String) →
      getTypescriptType j = .ok "any" ∧ getPythonType j = .ok "Any") := by
  induction n generalizing j with
  | zero => simp [schemaWFDepth] at h
  | succ n ih =>
    match j with
    | .null | .bool _ | .num _ | .str _ | .arr _ => simp [schemaWFDepth] at h
    | .obj fields =>
      simp only [schemaWFDepth, Bool.and_eq_true] at h
      obtain ⟨hEnumWF, hItemsWF⟩ := h
      refine ⟨?_, ?_, ?_⟩
      · cases hT : pyGet fields "type" with
        | none =>
          exact ⟨⟨"any", by simp [getTypescriptType, hT]⟩,
                 ⟨"Any", by simp [getPythonType, hT]⟩⟩
        | some v =>
          match v with
          | .null | .bool _ | .num _ | .arr _ | .obj _ =>
            exact ⟨⟨"any", by simp [getTypescriptType, hT]⟩,
                   ⟨"Any", by simp [getPythonType, hT]⟩⟩
          | .str t =>
            by_cases h1 : t = "string"
            · subst h1
              constructor
              · cases hE : pyGet fields "enum" with
                | none => exact ⟨"string", by simp [getTypescriptType, hT, hE]⟩
                | some e =>
                  rw [hE] at hEnumWF
                  match e with
                  | .arr vs =>
                    exact ⟨tsEnumUnion vs, by
                      simp [getTypescriptType, hT, hE, pyIter, bind, Except.bind,
                        tsEnumUnion]⟩
                  | .null | .bool _ | .num _ | .str _ | .obj _ => simp at hEnumWF
              · exact ⟨"str", by simp [getPythonType, hT]⟩
            · by_cases h2 : t = "number"
              · subst h2
                exact ⟨⟨"number", by simp [getTypescriptType, hT]⟩,
                       ⟨"float", by simp [getPythonType, hT]⟩⟩
              · by_cases h3 : t = "integer"
                · subst h3
                  exact ⟨⟨"number", by simp [getTypescriptType, hT]⟩,
                         ⟨"int", by simp [getPythonType, hT]⟩⟩
                · by_cases h4 : t = "boolean"
                  · subst h4
                    exact ⟨⟨"boolean", by simp [getTypescriptType, hT]⟩,
                           ⟨"bool", by simp [getPythonType, hT]⟩⟩
                  · by_cases h5 : t = "array"
                    · subst h5
                      cases hI : pyGet fields "items" with
                      | none =>
                        exact ⟨⟨"any" ++ "[]", tsType_array_none fields hT hI⟩,
                               ⟨"list[" ++ "Any" ++ "]", pyType_array_none fields hT hI⟩⟩
                      | some it =>
                        rw [hI] at hItemsWF
                        obtain ⟨⟨s1, hs1⟩, ⟨s2, hs2⟩⟩ := (ih it hItemsWF).1
                        exact ⟨⟨s1 ++ "[]", tsType_array_ok fields it s1 hT hI hs1⟩,
                               ⟨"list[" ++ s2 ++ "]", pyType_array_ok fields it s2 hT hI hs2⟩⟩
                    · by_cases h6 : t = "object"
                      · subst h6
                        exact ⟨⟨"Record<string, any>", by simp [getTypescriptType, hT]⟩,
                               ⟨"dict[str, Any]", by simp [getPythonType, hT]⟩⟩
                      · exact ⟨⟨"any", by simp [getTypescriptType, hT, h1, h2, h3, h4, h5, h6]⟩,
                               ⟨"Any", by simp [getPythonType, hT, h1, h2, h3, h4, h5, h6]⟩⟩
      · intro fs hfs hT
        injection hfs with hfs'
        subst hfs'
        exact ⟨by simp [getTypescriptType, hT], by simp [getPythonType, hT]⟩
      · intro fs t hfs hT hne
        injection hfs with hfs'
        subst hfs'
        simp only [List.mem_cons, List.not_mem_nil, or_false, not_or] at hne
        obtain ⟨h1, h2, h3, h4, h5, h6⟩ := hne
        exact ⟨by simp [getTypescriptType, hT, h1, h2, h3, h4, h5, h6],
               by simp [getPythonType, hT, h1, h2, h3, h4, h5, h6]⟩

theorem typeMapping_total_witness :
    (∃ s, getTypescriptType (Json.obj [("type", Json.str "frobnicate")]) = .ok s) ∧
    getTypescriptType (Json.obj [("type", Json.str "frobnicate")]) = .ok "any" ∧
    getPythonType (Json.obj [("type", Json.str "frobnicate")]) = .ok "Any" :=
  have H := typeMapping_total 1 (Json.obj [("type", Json.str "frobnicate")]) rfl
  ⟨H.1.1, (H.2.2 [("type", Json.str "frobnicate")] "frobnicate" rfl rfl (by decide)).1,
   (H.2.2 [("type", Json.str "frobnicate")] "frobnicate" rfl rfl (by decide)).2⟩

theorem sseScan_none (decode : String → Except PyError Json) (lines : List String)
    (h : ∀ line ∈ lines, pyStartsWith "data: " line = true →
      (decode (String.mk (line.toList.drop 6)) >>= pyContainsKey "endpoint") =
        Except.ok false) :
    sseScanForEndpoint decode lines = .ok none := by
  induction lines with
  | nil => rfl
  | cons line rest ih =>
    have hrest := fun l hl => h l (List.mem_cons_of_mem _ hl)
    rw [sseScanForEndpoint]
    by_cases hs : pyStartsWith "data: " line = true
    · rw [if_pos hs]
      have hline := h line (List.mem_cons_self _ _) hs
      cases hd : decode (String.mk (line.toList.drop 6)) with
      | error e => rw [hd] at hline; simp [bind, Except.bind] at hline
      | ok d =>
        rw [hd] at hline
        simp only [bind, Except.bind] at hline ⊢
        rw [hline]
        exact ih hrest
    · rw [if_neg hs]
      exact ih hrest

theorem sseScan_some (decode : String → Except PyError Json) (lines : List String)
    (ep : Json) (h : sseScanForEndpoint decode lines = .ok (some ep)) :
    ∃ line, line ∈ lines ∧ pyStartsWith "data: " line = true ∧
      (decode (String.mk (line.toList.drop 6)) >>= pyContainsKey "endpoint") =
        Except.ok true := by
  induction lines with
  | nil => simp [sseScanForEndpoint] at h
  | cons line rest ih =>
    rw [sseScanForEndpoint] at h
    by_cases hs : pyStartsWith "data: " line = true
    · rw [if_pos hs] at h
      cases hd : decode (String.mk (line.toList.drop 6)) with
      | error e => rw [hd] at h; simp [bind, Except.bind] at h
      | ok d =>
        rw [hd] at h
        simp only [bind, Except.bind] at h
        cases hc : pyContainsKey "endpoint" d with
        | error e => rw [hc] at h; simp at h
        | ok b =>
          rw [hc] at h
          cases b with
          | true =>
            refine ⟨line, List.mem_cons_self _ _, hs, ?_⟩
            rw [hd]
            simpa [bind, Except.bind] using hc
          | false =>
            simp only [if_neg (by decide : ¬(false = true))] at h
            obtain ⟨l, hl, h1, h2⟩ := ih h
            exact ⟨l, List.mem_cons_of_mem _ hl, h1, h2⟩
    · rw [if_neg hs] at h
      obtain ⟨l, hl, h1, h2⟩ := ih h
      exact ⟨l, List.mem_cons_of_mem _ hl, h1, h2⟩

/-- C8: in the handshake variant, when the event stream closes without any
`data: `-framed event whose decoded payload contains an `endpoint` field,
the fetch raises `ValueError("No endpoint URL received from SSE")` (the
spec's `TransportError`) before any discovery request, so no tool list can
be returned; conversely the discovery request is directed at a session
endpoint only when such an event was received. -/
theorem sse_handshake (decode : String → Except PyError Json) (lines : List String) :
    ((∀ line ∈ lines, pyStartsWith "data: " line = true →
        (decode (String.mk (line.toList.drop 6)) >>= pyContainsKey "endpoint") =
          Except.ok false) →
      sseSessionEndpoint decode lines =
        .error (.valueError "No endpoint URL received from SSE")) ∧
    (∀ ep, sseSessionEndpoint decode lines = .ok ep →
      ∃ line, line ∈ lines ∧ pyStartsWith "data: " line = true ∧
        (decode (String.mk (line.toList.drop 6)) >>= pyContainsKey "endpoint") =
          Except.ok true) := by
  constructor
  · intro h
    unfold sseSessionEndpoint
    rw [sseScan_none decode lines h]
    rfl
  · intro ep h
    unfold sseSessionEndpoint at h
    cases hscan : sseScanForEndpoint decode lines with
    | error e => rw [hscan] at h; simp [bind, Except.bind] at h
    | ok o =>
      rw [hscan] at h
      match o with
      | none =>
        simp only [bind, Except.bind] at h
        exact absurd h (by simp [throw, throwThe, MonadExceptOf.throw])
      | some ep2 =>
        obtain ⟨l, hl, h1, h2⟩ := sseScan_some decode lines ep2 hscan
        exact ⟨l, hl, h1, h2⟩

theorem sse_handshake_witness :
    sseSessionEndpoint decodeStub ["event: ping", "data: \x7b\x7d"] =
      .error (.valueError "No endpoint URL received from SSE") :=
  (sse_handshake decodeStub ["event: ping", "data: \x7b\x7d"]).1 (by
    intro line hl hs
    rcases List.mem_cons.mp hl with rfl | hl2
    · exact absurd hs (by decide)
    · rcases List.mem_cons.mp hl2 with rfl | hl3
      · rfl
      · exact absurd hl3 (List.not_mem_nil _))

theorem lastVal_foldl (q : String) (ws : List (String × String)) (init : Option String) :
    ws.foldl (fun acc pc => if pc.1 = q then some pc.2 else acc) init =
      (lastVal ws q).or init := by
  induction ws generalizing init with
  | nil => simp [lastVal]
  | cons pc rest ih =>
    rw [show lastVal (pc :: rest) q =
        List.foldl (fun acc pc => if pc.1 = q then some pc.2 else acc)
          (if pc.1 = q then some pc.2 else none) rest from rfl]
    rw [List.foldl_cons, ih, ih]
    by_cases hp : pc.1 = q <;> simp only [hp, if_true, if_false] <;>
      cases lastVal rest q <;> simp [Option.or]

theorem applyWrites_apply (ws : List (String × String)) (fs : FS) (q : String) :
    applyWrites fs ws q = (lastVal ws q).or (fs q) := by
  induction ws generalizing fs with
  | nil => simp [applyWrites, lastVal]
  | cons pc rest ih =>
    simp only [applyWrites, List.foldl_cons] at *
    rw [ih]
    have hcons : lastVal (pc :: rest) q =
        (lastVal rest q).or (if pc.1 = q then some pc.2 else none) := by
      simp only [lastVal, List.foldl_cons]
      exact lastVal_foldl q rest _
    rw [hcons, Option.or_assoc]
    congr 1
    unfold writeFS
    by_cases hp : q = pc.1
    · subst hp
      simp
    · rw [if_neg hp, if_neg (fun hcon => hp hcon.symm)]
      simp

theorem applyWrites_idem (ws : List (String × String)) (fs : FS) (q : String) :
    applyWrites (applyWrites fs ws) ws q = applyWrites fs ws q := by
  simp only [applyWrites_apply]
  cases lastVal ws q <;> simp [Option.or]

theorem generate_spec (outputDir : String) (schema : MCPToolSchema)
    (serverUrl : String) (fs : FS) :
    CustomNodeGenerator.generate outputDir schema serverUrl fs =
      (applyWrites fs (bundleWrites outputDir schema serverUrl),
       bundleOutcome schema serverUrl) := by
  unfold CustomNodeGenerator.generate bundleWrites bundleOutcome
  cases generateManifestDoc schema with
  | error e => rfl
  | ok manifest =>
    cases generateNodePy schema serverUrl with
    | error e => rfl
    | ok nodeCode =>
      cases generateFrontendFiles schema with
      | error e => rfl
      | ok files =>
        simp only [applyWrites, List.foldl_cons, List.append_assoc, List.foldl_append,
          List.foldl_map]
        rfl

/-- C2: regenerating the bundle for the same (schema, endpoint, output
directory) over the result of a previous generation run is a no-op: every
path holds byte-identical contents after the second run, and the outcome
is identical — generation writes are a deterministic function of schema
and endpoint alone. -/
theorem generate_idempotent (outputDir : String) (schema : MCPToolSchema)
    (serverUrl : String) (fs : FS) (path : String) :
    ((CustomNodeGenerator.generate outputDir schema serverUrl
        (CustomNodeGenerator.generate outputDir schema serverUrl fs).1).1 path =
      (CustomNodeGenerator.generate outputDir schema serverUrl fs).1 path) ∧
    (CustomNodeGenerator.generate outputDir schema serverUrl
        (CustomNodeGenerator.generate outputDir schema serverUrl fs).1).2 =
      (CustomNodeGenerator.generate outputDir schema serverUrl fs).2 := by
  simp only [generate_spec]
  exact ⟨applyWrites_idem _ _ _, trivial⟩
